import Mathlib

/-!
Shallow embedding of `AbstractDirective`
(src/projects/beyerleinf/ngx-dnd/src/lib/directives/abstract/abstract.directive.ts):
the shared behavioural base for drag-enabled / drop-enabled DOM elements.

State is made explicit: the directive's per-element fields, the process-wide
`DragDropService` session, and the native event (its `dataTransfer`).  Side
effects that the directive performs but does not store (lifecycle hook calls,
`preventDefault`, `stopPropagation`, DOM helper removal, scheduling of the
deferred change-detection) are recorded as an ordered trace of `Effect`s.
JavaScript truthiness of optional values is modelled with `Option`/`Bool`.
-/

namespace NgxDnd

/-- Configuration supplied at construction (`DragDropConfig`): the default
cursor and the name of the drop effect written onto the native transfer. -/
structure DragDropConfig where
  defaultCursor : String
  dropEffectName : String
  deriving Repr, DecidableEq

/-- Native `DataTransfer` object: `files` is the truthiness of its `files`
property, `dropEffect` the current drop-effect string, and `data` the map of
format-tagged payload strings written by `setData`. -/
structure DataTransfer where
  files : Bool
  dropEffect : String
  data : List (String × String)
  deriving Repr, DecidableEq

/-- Semantics of `dataTransfer.setData(k, v)`: replaces any payload stored
under format `k` with `v`. -/
def DataTransfer.setDataEntry (dt : DataTransfer) (k v : String) : DataTransfer :=
  { dt with data := dt.data.filter (fun p => p.1 != k) ++ [(k, v)] }

/-- Native event as seen by the handlers: an optional `dataTransfer`, and the
truthiness of its `preventDefault` / `stopPropagation` members (the code
guards some calls on their presence). -/
structure Event where
  dataTransfer : Option DataTransfer
  hasPreventDefault : Bool
  hasStopPropagation : Bool
  deriving Repr, DecidableEq

/-- Truthiness of `event.dataTransfer && event.dataTransfer.files`. -/
def eventHasFiles (ev : Event) : Bool :=
  match ev.dataTransfer with
  | some dt => dt.files
  | none => false

/-- The process-wide drag session (`DragDropService`): whether a drag is
active, the dragged payload, and the zones eligible to receive it. -/
structure DragDropService (δ : Type) where
  isDragged : Bool
  dragData : δ
  allowedDropZones : List String

/-- A DOM node, abstracted to an identity and the identities of its
descendants; enough to model `Node.contains`. -/
structure DomNode where
  id : Nat
  descendants : List Nat
  deriving Repr, DecidableEq

/-- `n.contains(t)` for a target with identity `t`: true on self or on any
descendant. -/
def DomNode.containsId (n : DomNode) (t : Nat) : Bool :=
  n.id == t || n.descendants.contains t

/-- `this.dragHandle.contains(this.target)` where `this.target` may still be
unset (DOM `contains` of null is false). -/
def handleContainsTarget (h : DomNode) (t : Option Nat) : Bool :=
  match t with
  | some tid => h.containsId tid
  | none => false

/-- The Angular `ChangeDetectorRef` viewed as a `ViewRef`: only its
`destroyed` flag is consulted. -/
structure ChangeDetectorRef where
  destroyed : Bool
  deriving Repr, DecidableEq

/-- Per-element state of `AbstractDirective`.  Cursor styles of the element
and of the (optional) drag handle are kept as separate mutable fields;
`parentElement` and `dragHelper` record the truthiness of
`this.element.parentElement` and `this.dragHelper`. -/
structure Directive (δ : Type) where
  config : DragDropConfig
  defaultCursor : String
  elementCursor : String
  handleCursor : String
  parentElement : Bool
  dragHelper : Bool
  dragHandle : Option DomNode
  target : Option Nat
  dragEnabled : Bool := true
  dropEnabled : Bool := false
  effectAllowed : Option String := none
  effectCursor : Option String := none
  dropZones : List String := []
  allowDrop : Option (δ → Bool) := none
  cloneItem : Bool := false

/-- Observable side effects of one handler invocation, in program order:
lifecycle hook calls, native event-control calls, DOM helper removal, and
the scheduling of the deferred change detection. -/
inductive Effect where
  | preventDefault
  | stopPropagation
  | dragStartHook
  | dragEndHook
  | dragEnterHook
  | dragOverHook
  | dragLeaveHook
  | dropHook
  | removeHelperFromParent
  | scheduleDetectChanges (delayMs : Nat)
  | refreshView
  deriving Repr, DecidableEq

/-- Result of running one registered handler: the updated directive, session
and event states plus the ordered effect trace. -/
structure HandlerResult (δ : Type) where
  dir : Directive δ
  svc : DragDropService δ
  ev : Event
  effects : List Effect

/-- `isDropAllowed` (lines 165–190): the filtering predicate consulted by the
four target-side handlers. -/
def isDropAllowed {δ : Type} (dir : Directive δ) (svc : DragDropService δ) (ev : Event) : Bool :=
  if (svc.isDragged || eventHasFiles ev) && dir.dropEnabled then
    match dir.allowDrop with
    | some p => p svc.dragData
    | none =>
      if dir.dropZones.length == 0 && svc.allowedDropZones.length == 0 then
        true
      else
        svc.allowedDropZones.any (fun dropZone => dir.dropZones.contains dropZone)
  else
    false

/-- Private `dragStart` (lines 153–158): when dragging is enabled, publish
this element's `dropZones` as the session's allowed zones and fire the
`dragStart` hook. -/
def dragStartMethod {δ : Type} (dir : Directive δ) (svc : DragDropService δ) :
    DragDropService δ × List Effect :=
  if dir.dragEnabled then
    ({ svc with allowedDropZones := dir.dropZones }, [Effect.dragStartHook])
  else
    (svc, [])

/-- Private `dragEnd` (lines 160–163): clear the session's allowed zones and
fire the `dragEnd` hook. -/
def dragEndMethod {δ : Type} (svc : DragDropService δ) : DragDropService δ × List Effect :=
  ({ svc with allowedDropZones := [] }, [Effect.dragEndHook])

/-- Private `preventAndStop` (lines 197–205): call `preventDefault` and
`stopPropagation` when the event carries them. -/
def preventAndStop (ev : Event) : List Effect :=
  (if ev.hasPreventDefault then [Effect.preventDefault] else []) ++
    (if ev.hasStopPropagation then [Effect.stopPropagation] else [])

/-- Delay, in milliseconds, of the deferred change detection (line 119). -/
def detectChangesDelayMs : Nat := 250

/-- `detectChanges` (lines 114–120): schedules the timer; nothing runs
synchronously. -/
def detectChanges : List Effect := [Effect.scheduleDetectChanges detectChangesDelayMs]

/-- Body of the `setTimeout` callback inside `detectChanges`, evaluated when
the timer fires against the `ChangeDetectorRef` state at that moment:
refresh only if the ref is present and its view is not destroyed. -/
def detectChangesTimerBody (cdr : Option ChangeDetectorRef) : List Effect :=
  match cdr with
  | some c => if !c.destroyed then [Effect.refreshView] else []
  | none => []

/-- Private `dragEnter` (lines 122–126). -/
def dragEnterMethod {δ : Type} (dir : Directive δ) (svc : DragDropService δ) (ev : Event) :
    List Effect :=
  if isDropAllowed dir svc ev then [Effect.dragEnterHook] else []

/-- Private `dragOver` (lines 128–136): on pass, `preventDefault` (when
present) then the `dragOver` hook. -/
def dragOverMethod {δ : Type} (dir : Directive δ) (svc : DragDropService δ) (ev : Event) :
    List Effect :=
  if isDropAllowed dir svc ev then
    (if ev.hasPreventDefault then [Effect.preventDefault] else []) ++ [Effect.dragOverHook]
  else []

/-- Private `dragLeave` (lines 138–142). -/
def dragLeaveMethod {δ : Type} (dir : Directive δ) (svc : DragDropService δ) (ev : Event) :
    List Effect :=
  if isDropAllowed dir svc ev then [Effect.dragLeaveHook] else []

/-- Private `drop` (lines 144–151): on pass, `preventAndStop`, the `drop`
hook, then `detectChanges`. -/
def dropMethod {δ : Type} (dir : Directive δ) (svc : DragDropService δ) (ev : Event) :
    List Effect :=
  if isDropAllowed dir svc ev then
    preventAndStop ev ++ [Effect.dropHook] ++ detectChanges
  else []

/-- Registered `onmousedown` handler (lines 59–61): record the event's target
as the pending pointer target. -/
def onmousedown {δ : Type} (dir : Directive δ) (targetId : Nat) : Directive δ :=
  { dir with target := some targetId }

/-- Registered `ondragover` handler (lines 47–56): run the private `dragOver`,
then — unconditionally — set the drop effect and write transfer data when a
`dataTransfer` is present, and return `false`. -/
def ondragover {δ : Type} (dir : Directive δ) (svc : DragDropService δ) (ev : Event) :
    HandlerResult δ × Bool :=
  let effs := dragOverMethod dir svc ev
  let ev2 :=
    match ev.dataTransfer with
    | some dt =>
        let dt2 := DataTransfer.setDataEntry
          { dt with dropEffect := dir.config.dropEffectName } "text" ""
        { ev with dataTransfer := some dt2 }
    | none => ev
  ({ dir := dir, svc := svc, ev := ev2, effects := effs }, false)

/-- Registered `ondragstart` handler (lines 63–77): cancel when a drag handle
is configured and does not contain the recorded pointer target; otherwise run
the private `dragStart` and write transfer data when present. -/
def ondragstart {δ : Type} (dir : Directive δ) (svc : DragDropService δ) (ev : Event) :
    HandlerResult δ :=
  if (match dir.dragHandle with
      | some h => !(handleContainsTarget h dir.target)
      | none => false) then
    { dir := dir, svc := svc, ev := ev, effects := [Effect.preventDefault] }
  else
    let started := dragStartMethod dir svc
    let ev2 :=
      match ev.dataTransfer with
      | some dt => { ev with dataTransfer := some (dt.setDataEntry "text" "") }
      | none => ev
    { dir := dir, svc := started.1, ev := ev2, effects := started.2 }

/-- Registered `ondragend` handler (lines 79–88): remove the drag helper from
the element's parent when both are present, run the private `dragEnd`, and
restore the default cursor on the handle (or on the element when no handle is
configured). -/
def ondragend {δ : Type} (dir : Directive δ) (svc : DragDropService δ) (ev : Event) :
    HandlerResult δ :=
  let removal : List Effect :=
    if dir.parentElement && dir.dragHelper then [Effect.removeHelperFromParent] else []
  let ended := dragEndMethod svc
  let dir2 :=
    match dir.dragHandle with
    | some _ => { dir with handleCursor := dir.defaultCursor }
    | none => { dir with elementCursor := dir.defaultCursor }
  { dir := dir2, svc := ended.1, ev := ev, effects := removal ++ ended.2 }

/-- Sample configuration used by the concrete witnesses. -/
def sampleConfig : DragDropConfig := { defaultCursor := "default", dropEffectName := "move" }

/-- Sample `DataTransfer` with no files and no data yet. -/
def sampleDT : DataTransfer := { files := false, dropEffect := "", data := [] }

/-- Sample native event carrying a `dataTransfer` and both control methods. -/
def sampleEvent : Event :=
  { dataTransfer := some sampleDT, hasPreventDefault := true, hasStopPropagation := true }

/-- Sample active session whose eligible zones are `["b", "c"]`. -/
def sampleSvc : DragDropService Nat :=
  { isDragged := true, dragData := 0, allowedDropZones := ["b", "c"] }

/-- Sample directive: drag and drop enabled, own zones `["a", "b"]`, no
`allowDrop` predicate, no drag handle. -/
def sampleDir : Directive Nat :=
  { config := sampleConfig, defaultCursor := "default", elementCursor := "default",
    handleCursor := "default", parentElement := true, dragHelper := false,
    dragHandle := none, target := none, dragEnabled := true, dropEnabled := true,
    dropZones := ["a", "b"], allowDrop := none }

/-- Sample drag handle: identity 1, whose only descendant is 2. -/
def sampleHandle : DomNode := { id := 1, descendants := [2] }

/-- Sample directive with a configured drag handle and a recorded pointer
target (identity 99) that lies outside the handle. -/
def sampleDirHandled : Directive Nat :=
  { sampleDir with dragHandle := some sampleHandle, target := some 99 }

/-- Sample directive whose element has no parent element while a drag helper
is present. -/
def sampleDirNoParent : Directive Nat :=
  { sampleDir with parentElement := false, dragHelper := true }

/-- C1: with `dropEnabled`, an active drag session and no `allowDrop`
predicate, `isDropAllowed` allows when both zone lists are empty, and
otherwise allows exactly when some eligible zone of the session also occurs
in the element's own `dropZones`. -/
theorem isDropAllowed_zone_intersection {δ : Type} (dir : Directive δ)
    (svc : DragDropService δ) (ev : Event)
    (hEnabled : dir.dropEnabled = true) (hActive : svc.isDragged = true)
    (hNoPred : dir.allowDrop = none) :
    (dir.dropZones = [] ∧ svc.allowedDropZones = [] → isDropAllowed dir svc ev = true) ∧
    (¬(dir.dropZones = [] ∧ svc.allowedDropZones = []) →
      (isDropAllowed dir svc ev = true ↔
        ∃ z, z ∈ svc.allowedDropZones ∧ z ∈ dir.dropZones)) := by
  unfold isDropAllowed
  rw [hEnabled, hActive, hNoPred]
  simp only [Bool.true_or, Bool.and_true, if_true]
  constructor
  · rintro ⟨h1, h2⟩
    simp [h1, h2]
  · intro hne
    have hcond : (dir.dropZones.length == 0 && svc.allowedDropZones.length == 0) = false := by
      rcases not_and_or.mp hne with h | h
      · have : dir.dropZones.length ≠ 0 := by
          simpa [List.length_eq_zero] using h
        simp [this]
      · have : svc.allowedDropZones.length ≠ 0 := by
          simpa [List.length_eq_zero] using h
        simp [this]
    rw [hcond, if_neg (by simp)]
    rw [List.any_eq_true]
    constructor
    · rintro ⟨z, hz, hmem⟩
      exact ⟨z, hz, by simpa using hmem⟩
    · rintro ⟨z, hz, hmem⟩
      exact ⟨z, hz, by simpa using hmem⟩

/-- Witness for C1 at a concrete input: own zones `["a", "b"]`, eligible
zones `["b", "c"]` intersect on `"b"`, so the drop is allowed. -/
theorem isDropAllowed_zone_intersection_witness :
    isDropAllowed sampleDir sampleSvc sampleEvent = true := by
  have h := isDropAllowed_zone_intersection sampleDir sampleSvc sampleEvent rfl rfl rfl
  exact (h.2 (by simp [sampleDir])).mpr ⟨"b", by simp [sampleSvc], by simp [sampleDir]⟩

/-- C2: when an `allowDrop` predicate is set and the gate passes
(`dropEnabled` with an active session or file data), `isDropAllowed` returns
exactly the predicate applied to the session payload, for every configuration
of the element's zones and the session's eligible zones. -/
theorem isDropAllowed_allowDrop_authoritative {δ : Type} (dir : Directive δ)
    (svc : DragDropService δ) (ev : Event) (p : δ → Bool)
    (hPred : dir.allowDrop = some p) (hEnabled : dir.dropEnabled = true)
    (hGate : svc.isDragged = true ∨ eventHasFiles ev = true) :
    isDropAllowed dir svc ev = p svc.dragData := by
  unfold isDropAllowed
  rw [hEnabled, hPred]
  have : (svc.isDragged || eventHasFiles ev) = true := by
    rcases hGate with h | h <;> simp [h]
  rw [this]
  simp

/-- Witness for C2 at a concrete input: zone intersection would allow, but a
constantly-false predicate forces rejection. -/
theorem isDropAllowed_allowDrop_authoritative_witness :
    isDropAllowed { sampleDir with allowDrop := some (fun _ => false) } sampleSvc sampleEvent
      = false := by
  have h := isDropAllowed_allowDrop_authoritative
    { sampleDir with allowDrop := some (fun _ => false) } sampleSvc sampleEvent
    (fun _ => false) rfl rfl (Or.inl rfl)
  simpa using h

/-- C3: `isDropAllowed` rejects whenever `dropEnabled` is false, or whenever
neither a drag session is active nor the event carries file data — for every
event, zone configuration and predicate. -/
theorem isDropAllowed_requires_gate {δ : Type} (dir : Directive δ)
    (svc : DragDropService δ) (ev : Event)
    (h : dir.dropEnabled = false ∨ (svc.isDragged = false ∧ eventHasFiles ev = false)) :
    isDropAllowed dir svc ev = false := by
  unfold isDropAllowed
  rcases h with h | ⟨h1, h2⟩
  · simp [h]
  · simp [h1, h2]

/-- Witness for C3 at a concrete input: `dropEnabled = false` forces
rejection even though a session is active and zones intersect. -/
theorem isDropAllowed_requires_gate_witness :
    isDropAllowed { sampleDir with dropEnabled := false } sampleSvc sampleEvent = false := by
  exact isDropAllowed_requires_gate _ _ _ (Or.inl rfl)

/-- C4: on drag-start with dragging enabled and the handle check passing
(no handle, or the recorded pointer target inside the handle), the session's
allowed zones become the element's `dropZones`, the `dragStart` hook fires
exactly once, and the native transfer receives a `"text"` entry. -/
theorem ondragstart_starts_drag {δ : Type} (dir : Directive δ) (svc : DragDropService δ)
    (ev : Event) (dt : DataTransfer)
    (hEnabled : dir.dragEnabled = true)
    (hHandle : dir.dragHandle = none ∨
      ∃ h, dir.dragHandle = some h ∧ handleContainsTarget h dir.target = true)
    (hDT : ev.dataTransfer = some dt) :
    (ondragstart dir svc ev).svc.allowedDropZones = dir.dropZones ∧
    (ondragstart dir svc ev).effects.count Effect.dragStartHook = 1 ∧
    ∃ dt2, (ondragstart dir svc ev).ev.dataTransfer = some dt2 ∧
      ("text", "") ∈ dt2.data := by
  have hblocked : (match dir.dragHandle with
      | some h => !(handleContainsTarget h dir.target)
      | none => false) = false := by
    rcases hHandle with h | ⟨hh, heq, hc⟩
    · simp [h]
    · simp [heq, hc]
  have hres : ondragstart dir svc ev =
      { dir := dir, svc := { svc with allowedDropZones := dir.dropZones },
        ev := { ev with dataTransfer := some (dt.setDataEntry "text" "") },
        effects := [Effect.dragStartHook] } := by
    unfold ondragstart dragStartMethod
    simp [hblocked, hDT, hEnabled]
  rw [hres]
  refine ⟨rfl, by simp, dt.setDataEntry "text" "", rfl, ?_⟩
  simp [DataTransfer.setDataEntry]

/-- Witness for C4 at a concrete input: the sample directive has no handle
and dragging enabled, so the session picks up `["a", "b"]` and the hook fires
once. -/
theorem ondragstart_starts_drag_witness :
    (ondragstart sampleDir sampleSvc sampleEvent).svc.allowedDropZones = sampleDir.dropZones ∧
    (ondragstart sampleDir sampleSvc sampleEvent).effects.count Effect.dragStartHook = 1 ∧
    ∃ dt2, (ondragstart sampleDir sampleSvc sampleEvent).ev.dataTransfer = some dt2 ∧
      ("text", "") ∈ dt2.data :=
  ondragstart_starts_drag sampleDir sampleSvc sampleEvent sampleDT rfl (Or.inl rfl) rfl

/-- C5: on every drag-end the session's allowed zones are cleared, the
`dragEnd` hook fires exactly once, and the default cursor is restored on the
handle when one is configured, else on the element. -/
theorem ondragend_clears_and_restores {δ : Type} (dir : Directive δ)
    (svc : DragDropService δ) (ev : Event) :
    (ondragend dir svc ev).svc.allowedDropZones = [] ∧
    (ondragend dir svc ev).effects.count Effect.dragEndHook = 1 ∧
    (if dir.dragHandle.isSome then (ondragend dir svc ev).dir.handleCursor
     else (ondragend dir svc ev).dir.elementCursor) = dir.defaultCursor := by
  refine ⟨rfl, ?_, ?_⟩
  · unfold ondragend dragEndMethod
    cases h : dir.parentElement && dir.dragHelper <;>
      simp [h, List.count_append]
  · unfold ondragend
    cases h : dir.dragHandle <;> simp [h]

/-- C6: on drag-start with a configured handle that does not contain the
recorded pointer target, the only effect is `preventDefault`: no hook fires
and the directive, session and event states are all left unchanged. -/
theorem ondragstart_handle_blocks {δ : Type} (dir : Directive δ) (svc : DragDropService δ)
    (ev : Event) (h : DomNode)
    (hHandle : dir.dragHandle = some h)
    (hMiss : handleContainsTarget h dir.target = false) :
    (ondragstart dir svc ev).effects = [Effect.preventDefault] ∧
    (ondragstart dir svc ev).svc = svc ∧
    (ondragstart dir svc ev).dir = dir ∧
    (ondragstart dir svc ev).ev = ev := by
  unfold ondragstart
  simp [hHandle, hMiss]

/-- Witness for C6 at a concrete input: a handle with identity 1 and only
descendant 2 does not contain the recorded pointer target 99, so the gesture
is cancelled with no state change. -/
theorem ondragstart_handle_blocks_witness :
    (ondragstart sampleDirHandled sampleSvc sampleEvent).effects = [Effect.preventDefault] ∧
    (ondragstart sampleDirHandled sampleSvc sampleEvent).svc = sampleSvc ∧
    (ondragstart sampleDirHandled sampleSvc sampleEvent).dir = sampleDirHandled ∧
    (ondragstart sampleDirHandled sampleSvc sampleEvent).ev = sampleEvent :=
  ondragstart_handle_blocks sampleDirHandled sampleSvc sampleEvent sampleHandle rfl rfl

/-- C7: each target-side hook fires exactly once when `isDropAllowed` passes
and never otherwise; a passing drop produces, in order, `preventDefault`,
`stopPropagation`, the `drop` hook and the scheduled deferred refresh, while
a failing drop produces no effect at all. -/
theorem target_hooks_gated_once {δ : Type} (dir : Directive δ) (svc : DragDropService δ)
    (ev : Event) :
    (dragEnterMethod dir svc ev).count Effect.dragEnterHook =
      (if isDropAllowed dir svc ev then 1 else 0) ∧
    (dragOverMethod dir svc ev).count Effect.dragOverHook =
      (if isDropAllowed dir svc ev then 1 else 0) ∧
    (dragLeaveMethod dir svc ev).count Effect.dragLeaveHook =
      (if isDropAllowed dir svc ev then 1 else 0) ∧
    (dropMethod dir svc ev).count Effect.dropHook =
      (if isDropAllowed dir svc ev then 1 else 0) ∧
    (isDropAllowed dir svc ev = true → ev.hasPreventDefault = true →
      ev.hasStopPropagation = true →
      dropMethod dir svc ev = [Effect.preventDefault, Effect.stopPropagation,
        Effect.dropHook, Effect.scheduleDetectChanges detectChangesDelayMs]) ∧
    (isDropAllowed dir svc ev = false → dropMethod dir svc ev = []) := by
  unfold dragEnterMethod dragOverMethod dragLeaveMethod dropMethod preventAndStop detectChanges
  cases hA : isDropAllowed dir svc ev
  · simp
  · refine ⟨by simp, ?_, by simp, ?_, ?_, by simp⟩
    · cases hp : ev.hasPreventDefault <;> simp [List.count_append]
    · cases hp : ev.hasPreventDefault <;> cases hs : ev.hasStopPropagation <;>
        simp [List.count_append]
    · intro _ hp hs
      simp [hp, hs]

/-- Witness for C7 at concrete inputs: on the passing sample the drop handler
emits suppression, the hook and the scheduled refresh in order, the
`dragEnter` hook fires once, and with `dropEnabled := false` a drop produces
nothing. -/
theorem target_hooks_gated_once_witness :
    dropMethod sampleDir sampleSvc sampleEvent =
      [Effect.preventDefault, Effect.stopPropagation, Effect.dropHook,
        Effect.scheduleDetectChanges detectChangesDelayMs] ∧
    (dragEnterMethod sampleDir sampleSvc sampleEvent).count Effect.dragEnterHook = 1 ∧
    dropMethod { sampleDir with dropEnabled := false } sampleSvc sampleEvent = [] := by
  have h1 := target_hooks_gated_once sampleDir sampleSvc sampleEvent
  have h2 := target_hooks_gated_once { sampleDir with dropEnabled := false } sampleSvc sampleEvent
  have hAllowed : isDropAllowed sampleDir sampleSvc sampleEvent = true := by decide
  have hRefused :
      isDropAllowed { sampleDir with dropEnabled := false } sampleSvc sampleEvent = false := by
    decide
  refine ⟨h1.2.2.2.2.1 hAllowed rfl rfl, ?_, h2.2.2.2.2.2 hRefused⟩
  simpa [hAllowed] using h1.1

/-- C8 counterexample: with a drag helper present but no parent element, the
drag-end handler performs no helper removal, contradicting removal "for every
state of the source element". -/
theorem ondragend_helper_counterexample :
    sampleDirNoParent.dragHelper = true ∧
    Effect.removeHelperFromParent ∉
      (ondragend sampleDirNoParent sampleSvc sampleEvent).effects := by
  decide

/-- C8 amended: on drag-end the helper is removed exactly when both the
element's parent element and the drag helper are present. -/
theorem ondragend_helper_removal_iff {δ : Type} (dir : Directive δ)
    (svc : DragDropService δ) (ev : Event) :
    Effect.removeHelperFromParent ∈ (ondragend dir svc ev).effects ↔
      (dir.parentElement = true ∧ dir.dragHelper = true) := by
  unfold ondragend dragEndMethod
  cases hp : dir.parentElement <;> cases hh : dir.dragHelper <;> simp [hp, hh]

/-- C9: the post-drop refresh is only scheduled (delay 250 ms, strictly
positive, nothing synchronous), and when the timer fires it refreshes exactly
when the change-detector ref is present and its view is not destroyed;
otherwise it is a silent no-op. -/
theorem detectChanges_deferred_guarded (cdr : ChangeDetectorRef) :
    Effect.refreshView ∉ detectChanges ∧
    0 < detectChangesDelayMs ∧
    detectChangesTimerBody (some cdr) =
      (if cdr.destroyed then [] else [Effect.refreshView]) ∧
    detectChangesTimerBody none = [] := by
  refine ⟨by decide, by decide, ?_, rfl⟩
  cases h : cdr.destroyed <;> simp [detectChangesTimerBody, h]

/-- C10: the registered drag-over handler always returns `false`, leaves the
directive and session untouched, fires the `dragOver` hook exactly when
filtering passes, and — independently of the filtering outcome — writes the
configured drop effect and a `"text"` entry onto the `dataTransfer` whenever
one is present, leaving the event unchanged otherwise. -/
theorem ondragover_native_effects {δ : Type} (dir : Directive δ) (svc : DragDropService δ)
    (ev : Event) :
    (ondragover dir svc ev).2 = false ∧
    (ondragover dir svc ev).1.dir = dir ∧
    (ondragover dir svc ev).1.svc = svc ∧
    (ondragover dir svc ev).1.effects.count Effect.dragOverHook =
      (if isDropAllowed dir svc ev then 1 else 0) ∧
    (if ev.dataTransfer.isSome then
      ∃ dt2, (ondragover dir svc ev).1.ev.dataTransfer = some dt2 ∧
        dt2.dropEffect = dir.config.dropEffectName ∧ ("text", "") ∈ dt2.data
     else (ondragover dir svc ev).1.ev = ev) := by
  refine ⟨rfl, rfl, rfl, ?_, ?_⟩
  · show (dragOverMethod dir svc ev).count Effect.dragOverHook = _
    unfold dragOverMethod
    cases hA : isDropAllowed dir svc ev
    · simp
    · cases hp : ev.hasPreventDefault <;> simp [List.count_append]
  · cases hdt : ev.dataTransfer with
    | none => simp [ondragover, hdt]
    | some dt =>
        simp only [Option.isSome_some, eq_self_iff_true, if_true]
        refine ⟨DataTransfer.setDataEntry
          { dt with dropEffect := dir.config.dropEffectName } "text" "", ?_, rfl, ?_⟩
        · simp [ondragover, hdt]
        · simp [DataTransfer.setDataEntry]

end NgxDnd
